import Mathlib

/-!
Verification of the Bookkeeping web application (transaction aggregation,
local-mode persistence, registration/login logic) against its specification.

Numeric amounts (JS `number`) are modelled as rationals `ℚ`, so sums are
exact; JS objects used as string-keyed maps are modelled as association
lists in insertion order; `localStorage` keys are modelled as `Option`
state (the key may be absent); thrown exceptions and early returns are
modelled with `Except` / `Option`.
-/

set_option maxHeartbeats 1000000

namespace Bookkeeping

/-- Transaction kind, from `types.ts` (`TransactionType`: INCOME = 'income',
EXPENSE = 'expense'). -/
inductive TransactionType where
  | income
  | expense
deriving DecidableEq, Repr

/-- A single money movement, from `types.ts` (`Transaction`): id, ISO date
string `YYYY-MM-DD`, free-text description, amount, kind. -/
structure Transaction where
  id : String
  date : String
  description : String
  amount : ℚ
  type : TransactionType
deriving DecidableEq, Repr

/-- From `App.tsx` `stats`: `transactions.filter(t => t.type ===
TransactionType.INCOME).reduce((acc, t) => acc + t.amount, 0)`. -/
def totalIncome (ts : List Transaction) : ℚ :=
  (ts.filter (fun t => decide (t.type = TransactionType.income))).foldl
    (fun acc t => acc + t.amount) 0

/-- From `App.tsx` `stats`: `transactions.filter(t => t.type ===
TransactionType.EXPENSE).reduce((acc, t) => acc + t.amount, 0)`. -/
def totalExpense (ts : List Transaction) : ℚ :=
  (ts.filter (fun t => decide (t.type = TransactionType.expense))).foldl
    (fun acc t => acc + t.amount) 0

/-- From `App.tsx` `stats`: `totalBalance: totalIncome - totalExpense`. -/
def totalBalance (ts : List Transaction) : ℚ :=
  totalIncome ts - totalExpense ts

/-- Folding `acc + f x` over a list starting from `init` is `init` plus the
sum of the mapped list (the shape of every `reduce((acc, t) => acc + …, 0)`
in the source). -/
theorem foldl_add_sum {α : Type} (f : α → ℚ) :
    ∀ (l : List α) (init : ℚ),
      l.foldl (fun acc x => acc + f x) init = init + (l.map f).sum := by
  intro l
  induction l with
  | nil => intro init; simp
  | cons x xs ih =>
      intro init
      simp [List.foldl_cons, ih, add_assoc]

theorem totalIncome_eq_sum (ts : List Transaction) :
    totalIncome ts =
      ((ts.filter (fun t => decide (t.type = TransactionType.income))).map
        (fun t => t.amount)).sum := by
  have h := foldl_add_sum (fun t : Transaction => t.amount)
    (ts.filter (fun t => decide (t.type = TransactionType.income))) 0
  simpa [totalIncome] using h

theorem totalExpense_eq_sum (ts : List Transaction) :
    totalExpense ts =
      ((ts.filter (fun t => decide (t.type = TransactionType.expense))).map
        (fun t => t.amount)).sum := by
  have h := foldl_add_sum (fun t : Transaction => t.amount)
    (ts.filter (fun t => decide (t.type = TransactionType.expense))) 0
  simpa [totalExpense] using h

/-- Claim C1: for every transaction collection, the derived summary satisfies
`totalBalance = totalIncome - totalExpense`, where `totalIncome` is the sum of
the amounts of all transactions of kind Income and `totalExpense` is the sum
of the amounts of all transactions of kind Expense. -/
theorem claim_C1_balance (ts : List Transaction) :
    totalBalance ts = totalIncome ts - totalExpense ts ∧
    totalIncome ts =
      ((ts.filter (fun t => decide (t.type = TransactionType.income))).map
        (fun t => t.amount)).sum ∧
    totalExpense ts =
      ((ts.filter (fun t => decide (t.type = TransactionType.expense))).map
        (fun t => t.amount)).sum :=
  ⟨rfl, totalIncome_eq_sum ts, totalExpense_eq_sum ts⟩

/-- Gregorian civil date from a count of days since 1970-01-01 (the
`civil_from_days` algorithm). This models what the JS `Date` does in
`App.tsx`: `d.setDate(d.getDate() - i)` is day arithmetic on the epoch-day
count and `toISOString().split('T')[0]` renders the corresponding UTC
calendar date. Returns (year, month, day). -/
def civilFromDays (z : ℤ) : ℤ × ℕ × ℕ :=
  let zs : ℤ := z + 719468
  let era : ℤ := Int.fdiv zs 146097
  let doe : ℕ := (zs - era * 146097).toNat
  let yoe : ℕ := (doe - doe / 1460 + doe / 36524 - doe / 146096) / 365
  let doy : ℕ := doe - (365 * yoe + yoe / 4 - yoe / 100)
  let mp : ℕ := (5 * doy + 2) / 153
  let d : ℕ := doy - (153 * mp + 2) / 5 + 1
  let m : ℕ := if mp < 10 then mp + 3 else mp - 9
  (era * 400 + yoe + (if m ≤ 2 then 1 else 0), m, d)

/-- Zero-pad a month/day number to two digits, as in an ISO date string. -/
def pad2 (n : ℕ) : String :=
  if n < 10 then "0" ++ toString n else toString n

/-- Zero-pad a year to four digits (the JS `toISOString` year format for the
years this application handles). -/
def pad4 (y : ℤ) : String :=
  if 1000 ≤ y then toString y
  else if 100 ≤ y then "0" ++ toString y
  else if 10 ≤ y then "00" ++ toString y
  else if 0 ≤ y then "000" ++ toString y
  else toString y

/-- The `YYYY-MM-DD` string produced by `toISOString().split('T')[0]` for the
given epoch-day count. -/
def isoDate (day : ℤ) : String :=
  let c := civilFromDays day
  pad4 c.1 ++ "-" ++ pad2 c.2.1 ++ "-" ++ pad2 c.2.2

/-- `toLocaleDateString('en-US', { weekday: 'short' })` of the given epoch
day: day 0 (1970-01-01) was a Thursday. -/
def weekdayShort (day : ℤ) : String :=
  (["Thu", "Fri", "Sat", "Sun", "Mon", "Tue", "Wed"]).getD (Int.emod day 7).toNat ""

/-- From `App.tsx` `stats`: `Array.from({ length: 7 }, (_, i) => { const d =
new Date(); d.setDate(d.getDate() - i); return
d.toISOString().split('T')[0]; }).reverse()`, with the wall-clock reference
date passed in as the epoch-day count `today`. -/
def last7Days (today : ℤ) : List String :=
  ((List.range 7).map (fun i : ℕ => isoDate (today - (i : ℤ)))).reverse

/-- One bucket of the weekly-spending chart data: `{ day: …, amount: … }`. -/
structure DayBucket where
  day : String
  amount : ℚ
deriving DecidableEq, Repr

/-- The per-day expense sum computed for one bucket in `App.tsx` `stats`:
`transactions.filter(t => t.date === date && t.type ===
TransactionType.EXPENSE).reduce((acc, t) => acc + t.amount, 0)`. -/
def dayAmount (ts : List Transaction) (date : String) : ℚ :=
  (ts.filter (fun t =>
      decide (t.date = date ∧ t.type = TransactionType.expense))).foldl
    (fun acc t => acc + t.amount) 0

/-- From `App.tsx` `stats`: `last7Days.map(date => … ({ day: new
Date(date).toLocaleDateString('en-US', { weekday: 'short' }), amount:
dayAmount }))`. The source maps over the date strings of `last7Days`; since
each such string is `isoDate d` for the day number `d = today - i` and `new
Date(s)` parses that string back to the same epoch day, we carry the
underlying day numbers in the map. -/
def weeklySpending (today : ℤ) (ts : List Transaction) : List DayBucket :=
  (((List.range 7).map (fun i : ℕ => today - (i : ℤ))).reverse).map
    (fun d => { day := weekdayShort d, amount := dayAmount ts (isoDate d) })

theorem dayAmount_eq_sum (ts : List Transaction) (date : String) :
    dayAmount ts date =
      ((ts.filter (fun t =>
          decide (t.date = date ∧ t.type = TransactionType.expense))).map
        (fun t => t.amount)).sum := by
  have h := foldl_add_sum (fun t : Transaction => t.amount)
    (ts.filter (fun t =>
      decide (t.date = date ∧ t.type = TransactionType.expense))) 0
  simpa [dayAmount] using h

/-- Index `k` of the reversed image of `List.range 7` is the image of
`6 - k`. -/
theorem getD_reverse_range_map {α : Type} (f : ℕ → α) (d : α) :
    ∀ k : ℕ, k < 7 →
      (((List.range 7).map f).reverse).getD k d = f (6 - k) := by
  intro k hk
  interval_cases k <;> rfl

/-- A transaction sampled in the C2 witness: an expense dated on epoch day
-3 (1969-12-29). -/
def sampleExpense : Transaction :=
  ⟨"t1", "1969-12-29", "Lunch", 4, TransactionType.expense⟩

/-- Claim C2: for every transaction collection and reference date `today`,
the weekly-spending view has exactly 7 buckets, one per calendar day in
`[today-6 .. today]` inclusive (the k-th entry of `last7Days` is the ISO
string of day `today - 6 + k`), and each bucket's amount equals the sum of
the amounts of transactions of kind Expense whose stored date string is
exactly equal to that bucket's date string; a day whose filter matches no
transaction yields a bucket amount of zero. -/
theorem claim_C2_weekly_buckets (today : ℤ) (ts : List Transaction) :
    (weeklySpending today ts).length = 7 ∧
    ∀ k : ℕ, k < 7 →
      (last7Days today).getD k "" = isoDate (today - 6 + (k : ℤ)) ∧
      ((weeklySpending today ts).getD k ⟨"", 0⟩).amount =
        ((ts.filter (fun t =>
            decide (t.date = isoDate (today - 6 + (k : ℤ)) ∧
              t.type = TransactionType.expense))).map
          (fun t => t.amount)).sum ∧
      ((ts.filter (fun t =>
          decide (t.date = isoDate (today - 6 + (k : ℤ)) ∧
            t.type = TransactionType.expense))) = [] →
        ((weeklySpending today ts).getD k ⟨"", 0⟩).amount = 0) := by
  constructor
  · simp only [weeklySpending, List.length_map, List.length_reverse,
      List.length_range]
  · intro k hk
    have hk6 : k ≤ 6 := by omega
    have e : today - ((6 - k : ℕ) : ℤ) = today - 6 + (k : ℤ) := by
      rw [Nat.cast_sub hk6]
      push_cast
      ring
    have hget1 : (last7Days today).getD k "" =
        isoDate (today - ((6 - k : ℕ) : ℤ)) := by
      have h := getD_reverse_range_map
        (fun i : ℕ => isoDate (today - (i : ℤ))) "" k hk
      simpa [last7Days] using h
    have hrw : weeklySpending today ts =
        ((List.range 7).map (fun i : ℕ =>
          (⟨weekdayShort (today - (i : ℤ)),
            dayAmount ts (isoDate (today - (i : ℤ)))⟩ : DayBucket))).reverse := by
      rw [weeklySpending, List.map_reverse, List.map_map]
      rfl
    have hget2 : (weeklySpending today ts).getD k ⟨"", 0⟩ =
        ⟨weekdayShort (today - ((6 - k : ℕ) : ℤ)),
          dayAmount ts (isoDate (today - ((6 - k : ℕ) : ℤ)))⟩ := by
      rw [hrw]
      exact getD_reverse_range_map _ _ k hk
    rw [hget1, hget2, e]
    refine ⟨rfl, dayAmount_eq_sum ts _, fun h => ?_⟩
    have hz := dayAmount_eq_sum ts (isoDate (today - 6 + (k : ℤ)))
    rw [h] at hz
    simpa using hz

/-- Witness for claim C2 at a concrete input: reference day 0, a single
expense dated three days earlier, bucket index 3. -/
theorem claim_C2_weekly_buckets_witness :
    (last7Days 0).getD 3 "" = isoDate (0 - 6 + ((3 : ℕ) : ℤ)) ∧
    ((weeklySpending 0 [sampleExpense]).getD 3 ⟨"", 0⟩).amount =
      ((([sampleExpense] : List Transaction).filter (fun t =>
          decide (t.date = isoDate (0 - 6 + ((3 : ℕ) : ℤ)) ∧
            t.type = TransactionType.expense))).map (fun t => t.amount)).sum ∧
    ((([sampleExpense] : List Transaction).filter (fun t =>
        decide (t.date = isoDate (0 - 6 + ((3 : ℕ) : ℤ)) ∧
          t.type = TransactionType.expense))) = [] →
      ((weeklySpending 0 [sampleExpense]).getD 3 ⟨"", 0⟩).amount = 0) :=
  (claim_C2_weekly_buckets 0 [sampleExpense]).2 3 (by decide)

/-- Models the JS `String.prototype.trim()`: strip whitespace from both
ends. -/
def trimJS (s : String) : String :=
  String.mk (((s.data.dropWhile Char.isWhitespace).reverse.dropWhile
    Char.isWhitespace).reverse)

/-- A name/value pair of the report chart data in `UserProfileModal.tsx`. -/
structure NamedValue where
  name : String
  value : ℚ
deriving DecidableEq, Repr

/-- One step of the `reduce` building `byItem` in `UserProfileModal.tsx`:
`acc[key] = (acc[key] || 0) + t.amount`. A JS object used as a string-keyed
map is modelled as an association list in insertion order: an existing key
has its value updated in place, a new key is appended. -/
def addToGroup : List (String × ℚ) → String → ℚ → List (String × ℚ)
  | [], k, v => [(k, v)]
  | (k', v') :: rest, k, v =>
      if k' = k then (k', v' + v) :: rest else (k', v') :: addToGroup rest k v

/-- From `UserProfileModal.tsx` `reportData`: `expenses.reduce((acc, t) => {
const key = t.description.trim(); acc[key] = (acc[key] || 0) + t.amount;
return acc; }, {})`. -/
def byItem (ts : List Transaction) : List (String × ℚ) :=
  (ts.filter (fun t => decide (t.type = TransactionType.expense))).foldl
    (fun acc t => addToGroup acc (trimJS t.description) t.amount) []

/-- From `UserProfileModal.tsx` `reportData`: `Object.entries(byItem).map(([
name, value]) => ({ name, value })).sort((a, b) => b.value - a.value)`, then
`if (topExpenses.length > 5)` keep the first 5 and append an "Others" entry
holding `topExpenses.slice(5).reduce((s, i) => s + i.value, 0)`. The JS
stable `sort` with comparator `b.value - a.value` is a stable descending
sort on `value`, modelled by `mergeSort` with the relation
`b.value ≤ a.value`. -/
def topExpenses (ts : List Transaction) : List NamedValue :=
  let sorted := ((byItem ts).map (fun p => NamedValue.mk p.1 p.2)).mergeSort
    (fun a b => decide (b.value ≤ a.value))
  if 5 < sorted.length then
    sorted.take 5 ++
      [⟨"Others", (sorted.drop 5).foldl (fun s i => s + i.value) 0⟩]
  else
    sorted

theorem addToGroup_snd_sum (k : String) (v : ℚ) :
    ∀ acc : List (String × ℚ),
      ((addToGroup acc k v).map Prod.snd).sum = (acc.map Prod.snd).sum + v := by
  intro acc
  induction acc with
  | nil => simp [addToGroup]
  | cons p rest ih =>
      obtain ⟨k', v'⟩ := p
      by_cases h : k' = k
      · simp [addToGroup, h, add_assoc, add_comm]
      · simp [addToGroup, h, ih, add_assoc]

theorem byItem_foldl_snd_sum :
    ∀ (l : List Transaction) (acc : List (String × ℚ)),
      ((l.foldl (fun acc t => addToGroup acc (trimJS t.description) t.amount)
          acc).map Prod.snd).sum =
        (acc.map Prod.snd).sum + (l.map (fun t => t.amount)).sum := by
  intro l
  induction l with
  | nil => intro acc; simp
  | cons t rest ih =>
      intro acc
      simp [List.foldl_cons, ih, addToGroup_snd_sum, add_assoc]

/-- The grouped per-description sums of `byItem` add up to the total of the
expense amounts. -/
theorem byItem_snd_sum (ts : List Transaction) :
    ((byItem ts).map Prod.snd).sum = totalExpense ts := by
  rw [byItem, byItem_foldl_snd_sum, totalExpense_eq_sum]
  simp

/-- Claim C3: for every transaction collection, the top-expenses list has at
most 6 entries, and the sum of all its entries' values equals
`totalExpense`. -/
theorem claim_C3_top_expenses (ts : List Transaction) :
    (topExpenses ts).length ≤ 6 ∧
    ((topExpenses ts).map (fun e => e.value)).sum = totalExpense ts := by
  have hperm : (((byItem ts).map (fun p => NamedValue.mk p.1 p.2)).mergeSort
      (fun a b => decide (b.value ≤ a.value))).Perm
        ((byItem ts).map (fun p => NamedValue.mk p.1 p.2)) :=
    List.mergeSort_perm _ _
  have hsum : ((((byItem ts).map (fun p => NamedValue.mk p.1 p.2)).mergeSort
      (fun a b => decide (b.value ≤ a.value))).map (fun e => e.value)).sum =
        totalExpense ts := by
    rw [(hperm.map (fun e => e.value)).sum_eq, List.map_map]
    have hcomp : ((fun e : NamedValue => e.value) ∘
        (fun p : String × ℚ => NamedValue.mk p.1 p.2)) = Prod.snd := rfl
    rw [hcomp, byItem_snd_sum]
  have hlen : (((byItem ts).map (fun p => NamedValue.mk p.1 p.2)).mergeSort
      (fun a b => decide (b.value ≤ a.value))).length =
        ((byItem ts).map (fun p => NamedValue.mk p.1 p.2)).length :=
    hperm.length_eq
  set sorted := ((byItem ts).map (fun p => NamedValue.mk p.1 p.2)).mergeSort
    (fun a b => decide (b.value ≤ a.value)) with hsorted
  by_cases hbig : 5 < sorted.length
  · have htop : topExpenses ts =
        sorted.take 5 ++
          [⟨"Others", (sorted.drop 5).foldl (fun s i => s + i.value) 0⟩] := by
      rw [topExpenses, ← hsorted, if_pos hbig]
    constructor
    · rw [htop]
      simp [List.length_take]
    · rw [htop, List.map_append, List.sum_append]
      have hothers : (sorted.drop 5).foldl (fun s i => s + i.value) 0 =
          ((sorted.drop 5).map (fun e => e.value)).sum := by
        simpa using foldl_add_sum (fun e : NamedValue => e.value)
          (sorted.drop 5) 0
      have hsplit : ((sorted.take 5).map (fun e => e.value)).sum +
          ((sorted.drop 5).map (fun e => e.value)).sum =
            (sorted.map (fun e => e.value)).sum := by
        rw [← List.sum_append, ← List.map_append, List.take_append_drop]
      simp only [List.map_cons, List.map_nil, List.sum_cons, List.sum_nil,
        add_zero, hothers]
      rw [hsplit, hsum]
  · have htop : topExpenses ts = sorted := by
      rw [topExpenses, ← hsorted, if_neg hbig]
    constructor
    · rw [htop]; omega
    · rw [htop, hsum]

/-- One slice of the spend-vs-income pie in `UserProfileModal.tsx`. -/
structure PieSlice where
  name : String
  value : ℚ
  color : String
deriving DecidableEq, Repr

/-- From `UserProfileModal.tsx` `reportData`: `[{ name: 'Spent', value:
spent, color: '#ef4444' }, { name: 'Remaining', value: remaining, color:
'#10b981' }].filter(item => item.value > 0)` with `remaining = Math.max(0,
totalIncome - totalExpense)` and `spent = totalExpense`. -/
def pieData (ts : List Transaction) : List PieSlice :=
  let remaining := max 0 (totalIncome ts - totalExpense ts)
  let spent := totalExpense ts
  ([⟨"Spent", spent, "#ef4444"⟩,
    ⟨"Remaining", remaining, "#10b981"⟩] : List PieSlice).filter
    (fun item => decide (0 < item.value))

/-- When every amount is non-negative, so is the expense total. -/
theorem totalExpense_nonneg (ts : List Transaction)
    (h : ∀ t ∈ ts, 0 ≤ t.amount) : 0 ≤ totalExpense ts := by
  rw [totalExpense_eq_sum]
  refine List.sum_nonneg ?_
  intro x hx
  obtain ⟨t, ht, rfl⟩ := List.mem_map.mp hx
  exact h t (List.mem_of_mem_filter ht)

/-- Claim C4: for every transaction collection (with the documented
invariant that amounts are non-negative), the spend-vs-income pie data is
the two-slice list Spent = `totalExpense`, Remaining = `max 0 (totalIncome -
totalExpense)` with every zero-value slice omitted; in particular it never
contains a zero-value slice, and when both totals are zero it is empty. -/
theorem claim_C4_pie (ts : List Transaction)
    (h : ∀ t ∈ ts, 0 ≤ t.amount) :
    pieData ts =
      ([⟨"Spent", totalExpense ts, "#ef4444"⟩,
        ⟨"Remaining", max 0 (totalIncome ts - totalExpense ts),
          "#10b981"⟩] : List PieSlice).filter
        (fun item => decide (item.value ≠ 0)) ∧
    (∀ s ∈ pieData ts, s.value ≠ 0) ∧
    (totalIncome ts = 0 → totalExpense ts = 0 → pieData ts = []) := by
  have hspent : (0 : ℚ) ≤ totalExpense ts := totalExpense_nonneg ts h
  have hrem : (0 : ℚ) ≤ max 0 (totalIncome ts - totalExpense ts) :=
    le_max_left 0 _
  refine ⟨?_, ?_, ?_⟩
  · rw [pieData]
    refine List.filter_congr ?_
    intro s hs
    have hval : (0 : ℚ) ≤ s.value := by
      simp only [List.mem_cons, List.not_mem_nil, or_false] at hs
      rcases hs with rfl | rfl
      · exact hspent
      · exact hrem
    by_cases hz : s.value = 0
    · simp [hz]
    · simp [hz, lt_of_le_of_ne hval (Ne.symm hz)]
  · intro s hs
    have := List.of_mem_filter hs
    have hpos : (0 : ℚ) < s.value := by simpa using this
    exact ne_of_gt hpos
  · intro hi he
    rw [pieData, hi, he]
    norm_num

/-- Witness for claim C4 at the spec's sample collection: two expenses of 50
and 30 called "Lunch" and one income of 200 (all amounts non-negative). -/
theorem claim_C4_pie_witness :
    pieData
        [⟨"a", "2024-01-01", "Lunch", 50, TransactionType.expense⟩,
          ⟨"b", "2024-01-02", "Lunch", 30, TransactionType.expense⟩,
          ⟨"c", "2024-01-03", "Allowance", 200, TransactionType.income⟩] =
      ([⟨"Spent",
          totalExpense
            [⟨"a", "2024-01-01", "Lunch", 50, TransactionType.expense⟩,
              ⟨"b", "2024-01-02", "Lunch", 30, TransactionType.expense⟩,
              ⟨"c", "2024-01-03", "Allowance", 200,
                TransactionType.income⟩], "#ef4444"⟩,
        ⟨"Remaining",
          max 0
            (totalIncome
              [⟨"a", "2024-01-01", "Lunch", 50, TransactionType.expense⟩,
                ⟨"b", "2024-01-02", "Lunch", 30, TransactionType.expense⟩,
                ⟨"c", "2024-01-03", "Allowance", 200,
                  TransactionType.income⟩] -
             totalExpense
              [⟨"a", "2024-01-01", "Lunch", 50, TransactionType.expense⟩,
                ⟨"b", "2024-01-02", "Lunch", 30, TransactionType.expense⟩,
                ⟨"c", "2024-01-03", "Allowance", 200,
                  TransactionType.income⟩]), "#10b981"⟩] :
        List PieSlice).filter (fun item => decide (item.value ≠ 0)) :=
  (claim_C4_pie
    [⟨"a", "2024-01-01", "Lunch", 50, TransactionType.expense⟩,
      ⟨"b", "2024-01-02", "Lunch", 30, TransactionType.expense⟩,
      ⟨"c", "2024-01-03", "Allowance", 200, TransactionType.income⟩]
    (by decide)).1

/-- Digit run to a natural number (most significant first). -/
def digitsToNat : List Char → ℕ → ℕ
  | [], acc => acc
  | c :: rest, acc => digitsToNat rest (acc * 10 + (c.toNat - Char.toNat '0'))

/-- Models JS `parseFloat` on the plain decimal strings a
`<input type="number" step="0.01">` can submit: an optional sign, an integer
digit run and an optional fractional digit run (at least one digit overall;
trailing text is ignored, as `parseFloat` does). Strings `parseFloat` maps
to NaN are modelled as `none`; exponent notation is outside the model. -/
def parseDecimal (s : String) : Option ℚ :=
  let cs := s.data
  let signAndRest : ℚ × List Char :=
    match cs with
    | '-' :: r => (-1, r)
    | '+' :: r => (1, r)
    | r => (1, r)
  let intPart := signAndRest.2.takeWhile Char.isDigit
  let rest2 := signAndRest.2.dropWhile Char.isDigit
  let fracPart :=
    match rest2 with
    | '.' :: r2 => r2.takeWhile Char.isDigit
    | _ => []
  if intPart = [] ∧ fracPart = [] then
    none
  else
    some (signAndRest.1 *
      ((digitsToNat intPart 0 : ℚ) +
        (digitsToNat fracPart 0 : ℚ) / ((10 : ℚ) ^ fracPart.length)))

/-- The payload `handleManualSubmit` passes to `onSave`. -/
structure SaveData where
  description : String
  amount : ℚ
  type : TransactionType
  date : String
deriving DecidableEq, Repr

/-- From `AddTransactionModal.tsx` `handleManualSubmit`: `if (!description
|| !amount) return;` then `onSave({ description, amount: parseFloat(amount),
type, date })`. The only guard is string emptiness; no bound is placed on
the parsed value. `none` models both the early return and a NaN parse. -/
def handleManualSubmit (description amountStr : String)
    (ty : TransactionType) (date : String) : Option SaveData :=
  if description = "" ∨ amountStr = "" then
    none
  else
    (parseDecimal amountStr).map (fun a => ⟨description, a, ty, date⟩)

/-- The structured result of the AI text parser, from `types.ts`
(`ParsedTransaction`). -/
structure ParsedTransaction where
  description : String
  amount : ℚ
  type : TransactionType
  date : Option String
deriving DecidableEq, Repr

/-- From `geminiService.ts` `parseTransactionFromText`, the validation of
the decoded JSON: `if (!json.description || json.amount === undefined)
return null;` then `{ description, amount: Number(json.amount), type:
json.type === 'income' ? INCOME : EXPENSE, date: json.date || undefined }`.
A missing field is `none`; a falsy description is missing or empty. No
bound is placed on the amount. -/
def validateParsed (description : Option String) (amount : Option ℚ)
    (ty : String) (date : Option String) : Option ParsedTransaction :=
  match description, amount with
  | some d, some a =>
      if d = "" then none
      else
        some ⟨d, a,
          if ty = "income" then TransactionType.income
          else TransactionType.expense,
          match date with
          | some s => if s = "" then none else some s
          | none => none⟩
  | _, _ => none

/-- Claim C5 (failing input): a manual entry with description "Lunch" and
amount input "-5" passes the guard in `handleManualSubmit` (both strings are
non-empty) and is saved with amount -5 < 0; likewise an AI-parsed result
with amount -10 passes the validation in `parseTransactionFromText` and is
returned with amount -10 < 0. Nothing on either creation path enforces the
claimed invariant that stored amounts are ≥ 0. -/
theorem claim_C5_negative_amount_stored :
    handleManualSubmit "Lunch" "-5" TransactionType.expense "2024-05-01" =
      some ⟨"Lunch", -5, TransactionType.expense, "2024-05-01"⟩ ∧
    ((-5 : ℚ) < 0) ∧
    validateParsed (some "Gift") (some (-10)) "expense" none =
      some ⟨"Gift", -10, TransactionType.expense, none⟩ ∧
    ((-10 : ℚ) < 0) := by
  refine ⟨?_, by norm_num, ?_, by norm_num⟩
  · simp +decide [handleManualSubmit, parseDecimal, digitsToNat]
  · simp +decide [validateParsed]

/-- The `pocketbook_data` localStorage slot: `none` when the key is absent.
JSON (de)serialisation of the transaction list is modelled as the identity
round-trip. -/
abbrev LocalData := Option (List Transaction)

/-- From `store.ts`: `const saved = localStorage.getItem('pocketbook_data');
const current = saved ? JSON.parse(saved) : [];`. -/
def loadData (st : LocalData) : List Transaction :=
  st.getD []

/-- From `store.ts` `deleteTransaction`, offline branch: `const filtered =
current.filter(t => t.id !== id); localStorage.setItem('pocketbook_data',
JSON.stringify(filtered));`. -/
def deleteTransactionLocal (id : String) (st : LocalData) : LocalData :=
  some ((loadData st).filter (fun t => decide (t.id ≠ id)))

/-- A partial update object (`Partial<Transaction>`): `none` fields are
absent from the spread. -/
structure TransactionPatch where
  id : Option String
  date : Option String
  description : Option String
  amount : Option ℚ
  type : Option TransactionType
deriving DecidableEq, Repr

/-- The spread `{ ...t, ...data }`: every field present in `data` overrides
the one of `t`. -/
def applyPatch (t : Transaction) (p : TransactionPatch) : Transaction :=
  { id := p.id.getD t.id
    date := p.date.getD t.date
    description := p.description.getD t.description
    amount := p.amount.getD t.amount
    type := p.type.getD t.type }

/-- From `store.ts` `updateTransaction`, offline branch: `current =
current.map(t => t.id === id ? { ...t, ...data } : t);
localStorage.setItem('pocketbook_data', JSON.stringify(current));`. -/
def updateTransactionLocal (id : String) (p : TransactionPatch)
    (st : LocalData) : LocalData :=
  some ((loadData st).map (fun t => if t.id = id then applyPatch t p else t))

/-- Claim C6: in local mode, deleting a transaction id not present in the
stored collection leaves the stored collection unchanged. -/
theorem claim_C6_delete_absent_noop (id : String) (st : LocalData)
    (h : id ∉ (loadData st).map (fun t => t.id)) :
    loadData (deleteTransactionLocal id st) = loadData st := by
  rw [deleteTransactionLocal, loadData, Option.getD_some]
  refine List.filter_eq_self.mpr ?_
  intro t ht
  have : t.id ≠ id := by
    intro he
    exact h (List.mem_map.mpr ⟨t, ht, he⟩)
  simpa using this

/-- Witness for claim C6: a one-element stored collection and an id that is
not in it. -/
theorem claim_C6_delete_absent_noop_witness :
    loadData (deleteTransactionLocal "zzz" (some [sampleExpense])) =
      loadData (some [sampleExpense]) :=
  claim_C6_delete_absent_noop "zzz" (some [sampleExpense]) (by decide)

/-- Claim C10: in local mode, `updateTransaction` preserves the length of
the stored collection, leaves every transaction whose id differs from the
given id unchanged at its position, and when no transaction has the given
id leaves the collection entirely unchanged. -/
theorem claim_C10_update_frame (id : String) (p : TransactionPatch)
    (st : LocalData) :
    (loadData (updateTransactionLocal id p st)).length =
      (loadData st).length ∧
    (∀ (k : ℕ) (t : Transaction), (loadData st)[k]? = some t → t.id ≠ id →
      (loadData (updateTransactionLocal id p st))[k]? = some t) ∧
    ((∀ t ∈ loadData st, t.id ≠ id) →
      loadData (updateTransactionLocal id p st) = loadData st) := by
  have hload : loadData (updateTransactionLocal id p st) =
      (loadData st).map (fun t => if t.id = id then applyPatch t p else t) := by
    rw [updateTransactionLocal, loadData, Option.getD_some]
  refine ⟨?_, ?_, ?_⟩
  · rw [hload, List.length_map]
  · intro k t hk ht
    rw [hload, List.getElem?_map, hk]
    simp [ht]
  · intro h
    rw [hload]
    have hcongr : (loadData st).map
        (fun t => if t.id = id then applyPatch t p else t) =
          (loadData st).map (fun t => t) := by
      refine List.map_congr_left ?_
      intro t ht
      simp [h t ht]
    rw [hcongr]
    simp

/-- Witness for claim C10: a stored collection updated at an absent id; the
collection is unchanged. -/
theorem claim_C10_update_frame_witness :
    loadData (updateTransactionLocal "zzz"
        ⟨none, none, some "Dinner", some 9, none⟩ (some [sampleExpense])) =
      loadData (some [sampleExpense]) :=
  (claim_C10_update_frame "zzz" ⟨none, none, some "Dinner", some 9, none⟩
    (some [sampleExpense])).2.2 (by decide)

/-- Report cadence, from `types.ts`: `'weekly' | 'monthly'`. -/
inductive ReportFrequency where
  | weekly
  | monthly
deriving DecidableEq, Repr

/-- A user profile, from `types.ts` (`UserProfile`); optional fields are
`Option`. -/
structure UserProfile where
  displayId : String
  name : String
  avatar : Option String
  password : String
  age : ℤ
  guardianEmail : Option String
  guardianPhone : Option String
  reportFrequency : Option ReportFrequency
  currency : Option String
deriving DecidableEq, Repr

/-- From `store.ts` `loginUser`, offline branch: read `pocketbook_user`; if
a profile is stored and `user.name === emailOrName || user.guardianEmail ===
emailOrName` return it, otherwise `throw new Error("Offline user not found
or password mismatch.")`. The password argument is never read in this
branch. -/
def loginUserLocal (emailOrName password : String)
    (savedUser : Option UserProfile) : Except String UserProfile :=
  match savedUser with
  | some u =>
      if u.name = emailOrName ∨ u.guardianEmail = some emailOrName then
        Except.ok u
      else
        Except.error "Offline user not found or password mismatch."
  | none => Except.error "Offline user not found or password mismatch."

/-- Claim C9: in local mode, `loginUser` returns the stored profile exactly
when the identifier equals the stored profile's name or guardianEmail, and
throws otherwise; the password argument never influences the outcome. -/
theorem claim_C9_offline_login (emailOrName password : String)
    (savedUser : Option UserProfile) :
    (∀ u, savedUser = some u →
      (u.name = emailOrName ∨ u.guardianEmail = some emailOrName) →
      loginUserLocal emailOrName password savedUser = Except.ok u) ∧
    ((∀ u, savedUser = some u →
        ¬(u.name = emailOrName ∨ u.guardianEmail = some emailOrName)) →
      loginUserLocal emailOrName password savedUser =
        Except.error "Offline user not found or password mismatch.") ∧
    (∀ password2,
      loginUserLocal emailOrName password savedUser =
        loginUserLocal emailOrName password2 savedUser) := by
  refine ⟨?_, ?_, ?_⟩
  · intro u hu hmatch
    rw [hu, loginUserLocal, if_pos hmatch]
  · intro h
    cases savedUser with
    | none => rfl
    | some u => rw [loginUserLocal, if_neg (h u rfl)]
  · intro password2
    rfl

/-- A profile sampled in the login witnesses. -/
def sampleProfile : UserProfile :=
  ⟨"12345678", "Alex Tan", none, "secret123", 20, none, none, none, none⟩

/-- Witness for claim C9: logging in by the stored profile's name with an
arbitrary password succeeds and returns the stored profile. -/
theorem claim_C9_offline_login_witness :
    loginUserLocal "Alex Tan" "totally-wrong-password"
        (some sampleProfile) = Except.ok sampleProfile :=
  (claim_C9_offline_login "Alex Tan" "totally-wrong-password"
    (some sampleProfile)).1 sampleProfile rfl (Or.inl rfl)

/-- Models JS `parseInt(s)` (radix 10): skip leading whitespace, optional
sign, then a digit run; trailing text is ignored; NaN (no digits) is
`none`. -/
def parseIntJS (s : String) : Option ℤ :=
  let cs := s.data.dropWhile Char.isWhitespace
  let signAndRest : ℤ × List Char :=
    match cs with
    | '-' :: r => (-1, r)
    | '+' :: r => (1, r)
    | r => (1, r)
  let digits := signAndRest.2.takeWhile Char.isDigit
  if digits = [] then none
  else some (signAndRest.1 * (digitsToNat digits 0 : ℤ))

/-- The test of the email pattern in `AuthScreen.tsx` (one or more
characters that are neither whitespace nor an at-sign, an at-sign, then the
same with a mandatory interior dot): holds exactly when the string has no
whitespace, exactly one at-sign which is not the first character, and the
part after the at-sign contains a dot that is neither its first nor its
last character. -/
def emailTest (s : String) : Bool :=
  let cs := s.data
  let before := cs.takeWhile (fun c => c != '@')
  let after := (cs.dropWhile (fun c => c != '@')).drop 1
  cs.all (fun c => !c.isWhitespace) &&
    (cs.count '@' == 1) &&
    !before.isEmpty &&
    ((after.drop 1).dropLast.any (fun c => c == '.'))

/-- `!isNaN(ageNum) && ageNum <= 17` from `AuthScreen.tsx`. -/
def isUnderageOf (ageNum : Option ℤ) : Bool :=
  match ageNum with
  | some n => decide (n ≤ 17)
  | none => false

/-- The registration branch of `AuthScreen.tsx` `handleSubmit`: the
`newErrors` object, modelled as the list of (key, message) pairs in the
source's assignment order. -/
def registerValidation (name password ageInput gEmail gPhone : String) :
    List (String × String) :=
  let ageNum := parseIntJS ageInput
  (if trimJS name = "" then [("name", "Name is required")] else []) ++
    (if password = "" then [("password", "Password is required")]
     else if password.length < 6 then
       [("password", "Password must be at least 6 characters long")]
     else []) ++
    (if ageInput = "" then [("age", "Age is required")]
     else
       match ageNum with
       | none => [("age", "Please enter a valid age")]
       | some n =>
           if n < 5 ∨ 100 < n then [("age", "Please enter a valid age")]
           else []) ++
    (if isUnderageOf ageNum then
       (if trimJS gEmail = "" ∧ trimJS gPhone = "" then
          [("guardianSection",
            "Please provide either an email or phone number.")]
        else []) ++
         (if trimJS gEmail ≠ "" ∧ ¬ emailTest gEmail then
            [("guardianEmail", "Please enter a valid email.")]
          else [])
     else [])

/-- The registration branch of `AuthScreen.tsx` `handleSubmit` after
validation: if `newErrors` is non-empty, set the errors and return before
`registerUser` is called (modelled as `Except.error`); otherwise build the
`UserProfile` (guardian fields kept only for an underage user with a truthy,
i.e. non-empty, input) and register it. `Math.random()` is modelled by an
arbitrary draw `rand`, giving `displayId = 10000000 + rand % 90000000`. -/
def registerSubmit (name password ageInput gEmail gPhone : String)
    (freq : ReportFrequency) (rand : ℕ) :
    Except (List (String × String)) UserProfile :=
  let errs := registerValidation name password ageInput gEmail gPhone
  if errs = [] then
    let ageNum := parseIntJS ageInput
    let isUnderage := isUnderageOf ageNum
    Except.ok
      { displayId := toString (10000000 + rand % 90000000)
        name := name
        avatar := none
        password := password
        age := ageNum.getD 0
        guardianEmail := if isUnderage && gEmail != "" then some gEmail
          else none
        guardianPhone := if isUnderage && gPhone != "" then some gPhone
          else none
        reportFrequency := if isUnderage then some freq else none
        currency := none }
  else
    Except.error errs

/-- Claim C7: every profile produced by registration has its guardian
contact fields populated only when its age is at most 17; for any age above
17 both guardian fields are absent. -/
theorem claim_C7_guardian_only_underage
    (name password ageInput gEmail gPhone : String) (freq : ReportFrequency)
    (rand : ℕ) (p : UserProfile)
    (hok : registerSubmit name password ageInput gEmail gPhone freq rand =
      Except.ok p)
    (hage : 17 < p.age) :
    p.guardianEmail = none ∧ p.guardianPhone = none := by
  simp only [registerSubmit] at hok
  by_cases he : registerValidation name password ageInput gEmail gPhone = []
  · rw [if_pos he] at hok
    have hp := Except.ok.inj hok
    subst hp
    have hage2 : 17 < (parseIntJS ageInput).getD 0 := hage
    have hu : isUnderageOf (parseIntJS ageInput) = false := by
      cases hparse : parseIntJS ageInput with
      | none => rw [isUnderageOf]
      | some n =>
          rw [isUnderageOf]
          rw [hparse] at hage2
          simp only [Option.getD_some] at hage2
          simp only [decide_eq_false_iff_not]
          omega
    constructor <;> simp [hu]
  · rw [if_neg he] at hok
    cases hok

/-- Witness for claim C7: a valid adult registration (age input "20")
produces a profile with no guardian contact fields. -/
theorem claim_C7_guardian_only_underage_witness :
    (registerSubmit "Alex Tan" "secret123" "20" "" "" ReportFrequency.weekly
        0 =
      Except.ok
        ⟨"10000000", "Alex Tan", none, "secret123", 20, none, none, none,
          none⟩) ∧
    ((⟨"10000000", "Alex Tan", none, "secret123", 20, none, none, none,
        none⟩ : UserProfile).guardianEmail = none ∧
      (⟨"10000000", "Alex Tan", none, "secret123", 20, none, none, none,
        none⟩ : UserProfile).guardianPhone = none) := by
  have hok : registerSubmit "Alex Tan" "secret123" "20" "" ""
      ReportFrequency.weekly 0 =
        Except.ok
          ⟨"10000000", "Alex Tan", none, "secret123", 20, none, none, none,
            none⟩ := by
    simp +decide [registerSubmit, registerValidation, parseIntJS,
      isUnderageOf, trimJS, digitsToNat]
  exact ⟨hok,
    claim_C7_guardian_only_underage "Alex Tan" "secret123" "20" "" ""
      ReportFrequency.weekly 0 _ hok (by norm_num)⟩

/-- Claim C8: a registration submission whose age input parses to 17 or
under with neither guardian email nor guardian phone provided (both blank
after trimming) yields the "provide either" validation error on the
guardian section and registration does not proceed (the submit returns the
errors instead of a profile). -/
theorem claim_C8_guardian_required
    (name password ageInput gEmail gPhone : String) (freq : ReportFrequency)
    (rand : ℕ) (n : ℤ)
    (hparse : parseIntJS ageInput = some n) (h17 : n ≤ 17)
    (hem : trimJS gEmail = "") (hph : trimJS gPhone = "") :
    ∃ errs,
      registerSubmit name password ageInput gEmail gPhone freq rand =
        Except.error errs ∧
      ("guardianSection", "Please provide either an email or phone number.")
        ∈ errs := by
  have hu : isUnderageOf (parseIntJS ageInput) = true := by
    rw [hparse, isUnderageOf]
    simpa using h17
  have hmem : ("guardianSection",
      "Please provide either an email or phone number.") ∈
        registerValidation name password ageInput gEmail gPhone := by
    simp [registerValidation, hu, hem, hph]
  have hne : registerValidation name password ageInput gEmail gPhone ≠ [] :=
    List.ne_nil_of_mem hmem
  refine ⟨registerValidation name password ageInput gEmail gPhone, ?_, hmem⟩
  simp only [registerSubmit]
  rw [if_neg hne]

/-- Witness for claim C8: age input "16" with blank guardian email and
phone; the submit fails with the "provide either" error on the guardian
section. -/
theorem claim_C8_guardian_required_witness :
    ∃ errs,
      registerSubmit "Alex Tan" "secret123" "16" "" "" ReportFrequency.weekly
          0 =
        Except.error errs ∧
      ("guardianSection", "Please provide either an email or phone number.")
        ∈ errs :=
  claim_C8_guardian_required "Alex Tan" "secret123" "16" "" ""
    ReportFrequency.weekly 0 16
    (by simp +decide [parseIntJS, digitsToNat]) (by norm_num) rfl rfl

end Bookkeeping
